import Mathlib

/-!
Verification of the Mergin Maps QGIS plugin core: the version-history pager
(`VersionsTableModel`, `VersionsFetcher`, `ProjectHistoryDockWidget` in
`Mergin/project_history_dock.py`) and the project validator
(`MerginProjectValidator` in `Mergin/validation.py`), shallowly embedded in
Lean.  Host/stdlib capabilities (Qt views, QGIS layer objects, `os.path`)
enter as explicit data on the environment records; the plugin's own logic is
translated directly.
-/

namespace Mergin

/-- One project version record.  In the source, `name` is the serialized
revision identifier (a string such as "v123"); the model stores the integer
that `int_version` extracts from it, since every use in the embedded code
goes through `int_version`.  `author` and `created` are carried verbatim. -/
structure Version where
  name : Nat
  author : String
  created : String
deriving Repr, DecidableEq

/-- Backing store of `VersionsTableModel`: the deque `self.versions`
(front = index 0 = newest) plus the rendering-only `current_version`. -/
structure VersionsTableModel where
  versions : List Version
  current_version : Option Nat
deriving Repr, DecidableEq

/-- `VersionsTableModel.latest_version`: `int_version(self.versions[0]["name"])`,
`None` when empty. -/
def latest_version (m : VersionsTableModel) : Option Nat :=
  m.versions.head?.map (·.name)

/-- `VersionsTableModel.oldest_version`: `int_version(self.versions[-1]["name"])`,
`None` when empty. -/
def oldest_version (m : VersionsTableModel) : Option Nat :=
  m.versions.getLast?.map (·.name)

/-- `VersionsTableModel.add_versions`: `self.versions.extend(versions)`
(the `insertRows`/`layoutChanged` calls are view notifications with no
effect on the stored data). -/
def add_versions (m : VersionsTableModel) (vs : List Version) : VersionsTableModel :=
  { m with versions := m.versions ++ vs }

/-- `VersionsTableModel.canFetchMore`:
`return self.oldest_version() == None or self.oldest_version() >= 1`. -/
def canFetchMore (m : VersionsTableModel) : Bool :=
  match oldest_version m with
  | none => true
  | some v => decide (v ≥ 1)

/-- The observable outcome of one `VersionsFetcher.run`: the computed fetch
window and the list of `finished.emit` payloads (in order). -/
structure FetchResult where
  since : Int
  toVersion : Int
  emissions : List (List Version)
deriving Repr, DecidableEq

/-- `VersionsFetcher.run`.  `remote_current_version` is the integer version
from `self.mc.project_info(...)` (consulted only when the model is empty);
`project_versions` is the remote list-versions collaborator
`self.mc.project_versions(name, since, to)`, returning versions in ascending
order per the server contract.  The body mirrors the source: compute `to`,
`since = to - 100` clamped to `1` only when negative, one remote call,
`versions.reverse()`, one `finished.emit(versions)`. -/
def VersionsFetcher.run (model : VersionsTableModel) (remote_current_version : Int)
    (project_versions : Int → Int → List Version) : FetchResult :=
  let toV : Int :=
    if model.versions.length = 0 then remote_current_version
    else ((oldest_version model).getD 0 : Nat)
  let since0 : Int := toV - 100
  let since : Int := if since0 < 0 then 1 else since0
  let versions := project_versions since toV
  ⟨since, toV, [versions.reverse]⟩

/-- Handle on a started `VersionsFetcher` thread, as seen by the dock:
only `isRunning()` is consulted. -/
structure FetcherHandle where
  isRunning : Bool
deriving Repr, DecidableEq

/-- The dock state relevant to `fetch_from_server`: the `self.fetcher`
slot and the ledger `self.model`. -/
structure DockState where
  fetcher : Option FetcherHandle
  model : VersionsTableModel
deriving Repr, DecidableEq

/-- `ProjectHistoryDockWidget.fetch_from_server`.  Returns the new dock state
and whether a new fetcher was constructed and started (i.e. whether a network
call was initiated).  Mirrors the source: if `self.fetcher` is set and
`isRunning()`, return immediately; otherwise build a fresh fetcher and
`start()` it. -/
def fetch_from_server (s : DockState) : DockState × Bool :=
  match s.fetcher with
  | some f =>
    if f.isRunning then (s, false)
    else ({ s with fetcher := some ⟨true⟩ }, true)
  | none => ({ s with fetcher := some ⟨true⟩ }, true)

/-- The model as constructed by `VersionsTableModel.__init__`. -/
def emptyModel : VersionsTableModel := ⟨[], none⟩

/-- Iterated `add_versions`: one call per page, in order. -/
def applyAdds (m : VersionsTableModel) (pages : List (List Version)) : VersionsTableModel :=
  pages.foldl add_versions m

/-- Version numbers of a list of versions, in list order. -/
def namesOf (vs : List Version) : List Nat := vs.map (·.name)

/-- Minimum version number of a list of versions (`none` when empty). -/
def minNames? : List Version → Option Nat
  | [] => none
  | v :: vs =>
    some (match minNames? vs with
          | none => v.name
          | some m => if v.name ≤ m then v.name else m)

/-! ## Project validator (`Mergin/validation.py`) -/

/-- The `Warning` enumeration of `validation.py` (13 variants). -/
inductive Warning where
  | PROJ_NOT_LOADED
  | PROJ_NOT_FOUND
  | MULTIPLE_PROJS
  | ABSOLUTE_PATHS
  | EDITABLE_NON_GPKG
  | EXTERNAL_SRC
  | NOT_FOR_OFFLINE
  | NO_EDITABLE_LAYERS
  | ATTACHMENT_ABSOLUTE_PATH
  | ATTACHMENT_LOCAL_PATH
  | ATTACHMENT_EXPRESSION_PATH
  | ATTACHMENT_HYPERLINK
  | DATABASE_SCHEMA_CHANGE
deriving Repr, DecidableEq

/-- A validation issue: `MultipleLayersWarning` (warning id plus a list of
layer ids, empty for project-scoped findings) or `SingleLayerWarning`
(one layer id plus a warning id). -/
inductive Issue where
  | multi (w : Warning) (layers : List String)
  | single (layer_id : String) (w : Warning)
deriving Repr, DecidableEq

/-- Default-root data of an attachment-widget configuration: the host-side
facts about the `DefaultRoot` string that the validator consults.
`isAbsPath` models `os.path.isabs(cfg["DefaultRoot"])`; `isValidExpression`
models `QgsExpression(cfg["DefaultRoot"]).isValid()` (both are external
capabilities of the OS/host, not plugin code). -/
structure DefaultRootInfo where
  isAbsPath : Bool
  isValidExpression : Bool
deriving Repr, DecidableEq

/-- The parts of an external-resource widget's `config()` dictionary read by
`check_attachment_widget`: the `RelativeStorage` value, the `DefaultRoot`
entry (`none` when the key is absent) and the `UseLink` entry (`none` when
the key is absent; the source only tests key membership, never the value,
so the carried value is opaque). -/
structure WidgetConfig where
  relativeStorage : Int
  defaultRoot : Option DefaultRootInfo
  useLink : Option Bool
deriving Repr, DecidableEq

/-- `layer.editorWidgetSetup(i)` as consulted by the validator: the widget
type string and its configuration. -/
structure EditorWidgetSetup where
  wtype : String
  config : WidgetConfig
deriving Repr, DecidableEq

/-- One field of a layer; `setup = none` models a falsy `editorWidgetSetup`. -/
structure Field where
  setup : Option EditorWidgetSetup
deriving Repr, DecidableEq

/-- A loaded map layer as seen through the QGIS host API by the validator.
`providerName = none` models `layer.dataProvider()` being `None` (or raising
`AttributeError` on `.name()`).  `inProjectDir` models the result of
`same_dir(os.path.dirname(l_path), self.qgis_proj_dir)` computed by
`check_saved_in_proj_dir` from `publicSource()` (path handling is OS/stdlib
capability).  `schemaDiffers` is the diff collaborator's verdict for this
layer, see `has_schema_change`. -/
structure Layer where
  lid : String
  isVector : Bool
  providerName : Option String
  canAddFeatures : Bool
  canChangeAttributeValues : Bool
  storageType : String
  inProjectDir : Bool
  fields : List Field
  schemaDiffers : Bool
deriving Repr, DecidableEq

/-- `QGIS_NET_PROVIDERS` from `Mergin/utils.py`. -/
def QGIS_NET_PROVIDERS : List String :=
  ["WFS", "arcgisfeatureserver", "arcgismapserver", "geonode", "ows", "wcs", "wms", "vectortile"]

/-- `QGIS_DB_PROVIDERS` from `Mergin/utils.py`. -/
def QGIS_DB_PROVIDERS : List String :=
  ["postgres", "mssql", "oracle", "hana", "postgresraster", "DB2"]

/-- Modelled from the spec: the external diff collaborator
`has_schema_change(mp, layer) -> (bool, message)` is imported from `.utils`
in `validation.py` but is not among the provided source files.  Per the
spec it compares the layer's current schema against the last-synced
baseline, the boolean reporting whether they differ; the message component
is not consulted by the validator's control flow and is omitted. -/
def has_schema_change (l : Layer) : Bool := l.schemaDiffers

/-- The environment of one validation run: everything `run_checks` reads
from the filesystem and the host.  `qgis_files` is `find_qgis_files(dir)`;
`proj_loaded` is `same_dir(self.qgis_files[0], QgsProject.absoluteFilePath())`;
`absolutePathsEntry` is the value returned (with `ok = True`) by
`readEntry("Paths", "/Absolute")`; `layers` is `mapLayers()` in iteration
order. -/
structure ValidationEnv where
  qgis_files : List String
  proj_loaded : Bool
  absolutePathsEntry : String
  layers : List Layer
deriving Repr, DecidableEq

/-- The mutable state of a `MerginProjectValidator` instance that persists
across `run_checks` calls and feeds the returned value: `self.issues`.
(The other instance fields — `qgis_files`, `layers`, `editable` — are
recomputed from the environment on every run; `layers_by_prov` accumulates
but is only ever used through membership tests, which duplicates do not
change.) -/
structure ValidatorState where
  issues : List Issue
deriving Repr, DecidableEq

/-- `self.editable` as computed by `get_proj_layers`: ids of vector layers
whose provider exists and reports `AddFeatures` or `ChangeAttributeValues`. -/
def editableLayers (layers : List Layer) : List String :=
  layers.foldl (fun acc l =>
    match l.providerName with
    | none => acc
    | some _ =>
      if l.isVector && (l.canAddFeatures || l.canChangeAttributeValues)
      then acc ++ [l.lid] else acc) []

/-- `self.layers_by_prov[name]`: ids of layers whose provider is `name`,
in iteration order. -/
def layersByProv (layers : List Layer) (name : String) : List String :=
  layers.foldl (fun acc l =>
    if l.providerName = some name then acc ++ [l.lid] else acc) []

/-- `MerginProjectValidator.check_single_proj`: appends `MULTIPLE_PROJS` /
`PROJ_NOT_FOUND` and returns `False` on failure, `True` when exactly one
project file exists. -/
def check_single_proj (env : ValidationEnv) (st : ValidatorState) :
    ValidatorState × Bool :=
  if env.qgis_files.length > 1 then
    (⟨st.issues ++ [Issue.multi Warning.MULTIPLE_PROJS []]⟩, false)
  else if env.qgis_files.length = 0 then
    (⟨st.issues ++ [Issue.multi Warning.PROJ_NOT_FOUND []]⟩, false)
  else (st, true)

/-- `MerginProjectValidator.check_proj_loaded`. -/
def check_proj_loaded (env : ValidationEnv) (st : ValidatorState) :
    ValidatorState × Bool :=
  if env.proj_loaded then (st, true)
  else (⟨st.issues ++ [Issue.multi Warning.PROJ_NOT_LOADED []]⟩, false)

/-- Issue-appending part of `MerginProjectValidator.get_proj_layers`:
`NO_EDITABLE_LAYERS` when no layer is editable. -/
def get_proj_layers (layers : List Layer) (st : ValidatorState) : ValidatorState :=
  if editableLayers layers = [] then
    ⟨st.issues ++ [Issue.multi Warning.NO_EDITABLE_LAYERS []]⟩
  else st

/-- `MerginProjectValidator.check_proj_paths_relative`: flag unless the
project entry `Paths//Absolute` equals `"false"`. -/
def check_proj_paths_relative (env : ValidationEnv) (st : ValidatorState) :
    ValidatorState :=
  if env.absolutePathsEntry = "false" then st
  else ⟨st.issues ++ [Issue.multi Warning.ABSOLUTE_PATHS []]⟩

/-- `MerginProjectValidator.check_saved_in_proj_dir`: for layers listed
under the `gdal` or `ogr` providers, flag those whose data file is outside
the project directory. -/
def check_saved_in_proj_dir (layers : List Layer) (st : ValidatorState) :
    ValidatorState :=
  layers.foldl (fun st l =>
    if l.lid ∈ layersByProv layers "gdal" ++ layersByProv layers "ogr" then
      if l.inProjectDir then st
      else ⟨st.issues ++ [Issue.single l.lid Warning.EXTERNAL_SRC]⟩
    else st) st

/-- `MerginProjectValidator.check_editable_vectors_format`: editable layers
whose storage type is not `"GPKG"` are flagged. -/
def check_editable_vectors_format (layers : List Layer) (editable : List String)
    (st : ValidatorState) : ValidatorState :=
  layers.foldl (fun st l =>
    if l.lid ∈ editable then
      if l.storageType = "GPKG" then st
      else ⟨st.issues ++ [Issue.single l.lid Warning.EDITABLE_NON_GPKG]⟩
    else st) st

/-- `MerginProjectValidator.check_offline`: collect ids of layers whose
provider is a network or database provider into one grouped warning,
appended only when the collection is non-empty; layers without a provider
name are skipped (the `AttributeError` branch). -/
def check_offline (layers : List Layer) (st : ValidatorState) : ValidatorState :=
  let wlayers := layers.foldl (fun acc l =>
    match l.providerName with
    | none => acc
    | some n =>
      if n ∈ QGIS_NET_PROVIDERS ++ QGIS_DB_PROVIDERS then acc ++ [l.lid] else acc) []
  if wlayers = [] then st
  else ⟨st.issues ++ [Issue.multi Warning.NOT_FOR_OFFLINE wlayers]⟩

/-- The issues appended for one field by the body of
`check_attachment_widget`'s inner loop, in source append order. -/
def attachmentFieldIssues (lid : String) (f : Field) : List Issue :=
  match f.setup with
  | none => []
  | some ws =>
    if ws.wtype = "ExternalResource" then
      (if ws.config.relativeStorage = 0
       then [Issue.single lid Warning.ATTACHMENT_ABSOLUTE_PATH] else []) ++
      (match ws.config.defaultRoot with
       | none => []
       | some dr =>
         (if dr.isAbsPath
          then [Issue.single lid Warning.ATTACHMENT_LOCAL_PATH] else []) ++
         (if dr.isValidExpression
          then [Issue.single lid Warning.ATTACHMENT_EXPRESSION_PATH] else []) ++
         (if ws.config.useLink.isSome
          then [Issue.single lid Warning.ATTACHMENT_HYPERLINK] else []))
    else []

/-- `MerginProjectValidator.check_attachment_widget`: for every editable
layer, every field with an `ExternalResource` widget contributes its
issues. -/
def check_attachment_widget (layers : List Layer) (editable : List String)
    (st : ValidatorState) : ValidatorState :=
  layers.foldl (fun st l =>
    if l.lid ∈ editable then
      l.fields.foldl (fun st f => ⟨st.issues ++ attachmentFieldIssues l.lid f⟩) st
    else st) st

/-- `MerginProjectValidator.check_db_schema`: for editable GeoPackage layers,
append `DATABASE_SCHEMA_CHANGE` when `not has_change` — i.e. exactly when the
diff collaborator reports no schema difference (the source's test as
written). -/
def check_db_schema (layers : List Layer) (editable : List String)
    (st : ValidatorState) : ValidatorState :=
  layers.foldl (fun st l =>
    if l.lid ∈ editable then
      if l.storageType = "GPKG" then
        if has_schema_change l then st
        else ⟨st.issues ++ [Issue.single l.lid Warning.DATABASE_SCHEMA_CHANGE]⟩
      else st
    else st) st

/-- `MerginProjectValidator.run_checks`: the fixed pipeline, aborting after
`check_single_proj` or `check_proj_loaded` fails, and returning
`self.issues`. -/
def run_checks (env : ValidationEnv) (st : ValidatorState) : ValidatorState :=
  let r1 := check_single_proj env st
  if r1.2 = false then r1.1 else
  let r2 := check_proj_loaded env r1.1
  if r2.2 = false then r2.1 else
  let editable := editableLayers env.layers
  let st3 := get_proj_layers env.layers r2.1
  let st4 := check_proj_paths_relative env st3
  let st5 := check_saved_in_proj_dir env.layers st4
  let st6 := check_editable_vectors_format env.layers editable st5
  let st7 := check_offline env.layers st6
  let st8 := check_attachment_widget env.layers editable st7
  check_db_schema env.layers editable st8

/-- A fresh validator's state (`self.issues = list()` in `__init__`). -/
def freshValidator : ValidatorState := ⟨[]⟩

/-! ## Helper lemmas -/

lemma namesOf_cons (v : Version) (vs : List Version) :
    namesOf (v :: vs) = v.name :: namesOf vs := rfl

lemma namesOf_append (l l' : List Version) :
    namesOf (l ++ l') = namesOf l ++ namesOf l' := List.map_append _ _ _

lemma minNames_cons_of_some (v : Version) (vs : List Version) (mt : Nat)
    (h : minNames? vs = some mt) :
    minNames? (v :: vs) = some (if v.name ≤ mt then v.name else mt) := by
  simp [minNames?, h]

lemma minNames_mem : ∀ (vs : List Version) (m : Nat),
    minNames? vs = some m → ∃ u ∈ vs, u.name = m
  | [], m => by simp [minNames?]
  | v :: vs, m => by
    intro h
    cases hm : minNames? vs with
    | none =>
      simp only [minNames?, hm, Option.some.injEq] at h
      exact ⟨v, by simp, h⟩
    | some mt =>
      simp only [minNames?, hm, Option.some.injEq] at h
      by_cases hle : v.name ≤ mt
      · rw [if_pos hle] at h
        exact ⟨v, by simp, h⟩
      · rw [if_neg hle] at h
        obtain ⟨u, hu, hname⟩ := minNames_mem vs mt hm
        exact ⟨u, by simp [hu], by omega⟩

lemma applyAdds_versions : ∀ (pages : List (List Version)) (m : VersionsTableModel),
    (applyAdds m pages).versions = m.versions ++ pages.flatten
  | [], m => by simp [applyAdds]
  | p :: ps, m => by
    simp only [applyAdds, List.foldl_cons, List.flatten]
    rw [show (List.foldl add_versions (add_versions m p) ps) = applyAdds (add_versions m p) ps from rfl]
    rw [applyAdds_versions ps]
    simp [add_versions]

lemma getLast_eq_min_of_desc : ∀ (vs : List Version),
    (namesOf vs).Pairwise (· > ·) → (vs.getLast?).map (·.name) = minNames? vs
  | [], _ => rfl
  | [_], _ => rfl
  | v :: w :: t, h => by
    rw [namesOf_cons] at h
    obtain ⟨hhd, htl⟩ := List.pairwise_cons.mp h
    cases hm : minNames? (w :: t) with
    | none => simp [minNames?] at hm
    | some mt =>
      have hlt : mt < v.name := by
        obtain ⟨u, hu, hname⟩ := minNames_mem _ _ hm
        have humem : u.name ∈ namesOf (w :: t) := by
          unfold namesOf
          exact List.mem_map_of_mem _ hu
        have := hhd u.name humem
        omega
      have ih := getLast_eq_min_of_desc (w :: t) htl
      rw [List.getLast?_cons_cons, ih, hm, minNames_cons_of_some v _ mt hm]
      simp only [Option.some.injEq]
      split <;> omega

lemma foldl_append_factor {α : Type} (f : ValidatorState → α → ValidatorState)
    (d : α → List Issue) (hf : ∀ st a, f st a = ⟨st.issues ++ d a⟩) :
    ∀ (l : List α) (st : ValidatorState), l.foldl f st = ⟨st.issues ++ l.flatMap d⟩
  | [], st => by simp
  | a :: l, st => by
    rw [List.foldl_cons, hf, foldl_append_factor f d hf l]
    simp

/-- A check that only ever appends an environment-determined batch of issues
to the running list. -/
def Shifts (c : ValidatorState → ValidatorState) : Prop :=
  ∀ st, c st = ⟨st.issues ++ (c ⟨[]⟩).issues⟩

lemma shifts_of_factor (c : ValidatorState → ValidatorState) (D : List Issue)
    (h : ∀ st, c st = ⟨st.issues ++ D⟩) : Shifts c := by
  intro st
  rw [h, h]
  simp

lemma shifts_comp (c₁ c₂ : ValidatorState → ValidatorState)
    (h₁ : Shifts c₁) (h₂ : Shifts c₂) : Shifts (fun st => c₂ (c₁ st)) := by
  intro st
  show c₂ (c₁ st) = ⟨st.issues ++ (c₂ (c₁ ⟨[]⟩)).issues⟩
  rw [h₂ (c₁ st), h₁ st, h₂ (c₁ ⟨[]⟩), h₁ ⟨[]⟩]
  simp

lemma get_proj_layers_factor (layers : List Layer) (st : ValidatorState) :
    get_proj_layers layers st =
      ⟨st.issues ++ (if editableLayers layers = []
        then [Issue.multi Warning.NO_EDITABLE_LAYERS []] else [])⟩ := by
  unfold get_proj_layers
  split <;> simp

lemma check_proj_paths_relative_factor (env : ValidationEnv) (st : ValidatorState) :
    check_proj_paths_relative env st =
      ⟨st.issues ++ (if env.absolutePathsEntry = "false"
        then [] else [Issue.multi Warning.ABSOLUTE_PATHS []])⟩ := by
  unfold check_proj_paths_relative
  split <;> simp

lemma check_saved_in_proj_dir_factor (layers : List Layer) (st : ValidatorState) :
    check_saved_in_proj_dir layers st =
      ⟨st.issues ++ layers.flatMap (fun l =>
        if l.lid ∈ layersByProv layers "gdal" ++ layersByProv layers "ogr" then
          if l.inProjectDir then [] else [Issue.single l.lid Warning.EXTERNAL_SRC]
        else [])⟩ := by
  unfold check_saved_in_proj_dir
  apply foldl_append_factor
  intro st l
  split <;> [skip; simp]
  split <;> simp

lemma check_editable_vectors_format_factor (layers : List Layer)
    (editable : List String) (st : ValidatorState) :
    check_editable_vectors_format layers editable st =
      ⟨st.issues ++ layers.flatMap (fun l =>
        if l.lid ∈ editable then
          if l.storageType = "GPKG" then []
          else [Issue.single l.lid Warning.EDITABLE_NON_GPKG]
        else [])⟩ := by
  unfold check_editable_vectors_format
  apply foldl_append_factor
  intro st l
  split <;> [skip; simp]
  split <;> simp

lemma check_offline_factor (layers : List Layer) (st : ValidatorState) :
    check_offline layers st =
      ⟨st.issues ++
        (if (layers.foldl (fun acc l =>
              match l.providerName with
              | none => acc
              | some n =>
                if n ∈ QGIS_NET_PROVIDERS ++ QGIS_DB_PROVIDERS
                then acc ++ [l.lid] else acc) []) = []
         then []
         else [Issue.multi Warning.NOT_FOR_OFFLINE
                (layers.foldl (fun acc l =>
                  match l.providerName with
                  | none => acc
                  | some n =>
                    if n ∈ QGIS_NET_PROVIDERS ++ QGIS_DB_PROVIDERS
                    then acc ++ [l.lid] else acc) [])])⟩ := by
  unfold check_offline
  split <;> simp_all

lemma check_attachment_widget_factor (layers : List Layer)
    (editable : List String) (st : ValidatorState) :
    check_attachment_widget layers editable st =
      ⟨st.issues ++ layers.flatMap (fun l =>
        if l.lid ∈ editable then l.fields.flatMap (attachmentFieldIssues l.lid)
        else [])⟩ := by
  unfold check_attachment_widget
  apply foldl_append_factor
  intro st l
  split
  · rw [foldl_append_factor (fun st f => ⟨st.issues ++ attachmentFieldIssues l.lid f⟩)
        (attachmentFieldIssues l.lid) (fun _ _ => rfl)]
  · simp

lemma check_db_schema_factor (layers : List Layer)
    (editable : List String) (st : ValidatorState) :
    check_db_schema layers editable st =
      ⟨st.issues ++ layers.flatMap (fun l =>
        if l.lid ∈ editable then
          if l.storageType = "GPKG" then
            if has_schema_change l then []
            else [Issue.single l.lid Warning.DATABASE_SCHEMA_CHANGE]
          else []
        else [])⟩ := by
  unfold check_db_schema
  apply foldl_append_factor
  intro st l
  split <;> [skip; simp]
  split <;> [skip; simp]
  split <;> simp

/-- The tail of the pipeline after the two aborting checks, as composed by
`run_checks`. -/
def pipelineTail (env : ValidationEnv) (st : ValidatorState) : ValidatorState :=
  check_db_schema env.layers (editableLayers env.layers)
    (check_attachment_widget env.layers (editableLayers env.layers)
      (check_offline env.layers
        (check_editable_vectors_format env.layers (editableLayers env.layers)
          (check_saved_in_proj_dir env.layers
            (check_proj_paths_relative env
              (get_proj_layers env.layers st))))))

lemma pipelineTail_shifts (env : ValidationEnv) : Shifts (pipelineTail env) := by
  unfold pipelineTail
  refine shifts_comp _ _ (shifts_comp _ _ (shifts_comp _ _ (shifts_comp _ _
    (shifts_comp _ _ (shifts_comp _ _ ?_ ?_) ?_) ?_) ?_) ?_) ?_
  · exact shifts_of_factor _ _ (get_proj_layers_factor env.layers)
  · exact shifts_of_factor _ _ (check_proj_paths_relative_factor env)
  · exact shifts_of_factor _ _ (check_saved_in_proj_dir_factor env.layers)
  · exact shifts_of_factor _ _ (check_editable_vectors_format_factor env.layers _)
  · exact shifts_of_factor _ _ (check_offline_factor env.layers)
  · exact shifts_of_factor _ _ (check_attachment_widget_factor env.layers _)
  · exact shifts_of_factor _ _ (check_db_schema_factor env.layers _)

lemma run_checks_eq_pipelineTail (env : ValidationEnv) (st : ValidatorState)
    (h1 : env.qgis_files.length = 1) (h3 : env.proj_loaded = true) :
    run_checks env st = pipelineTail env st := by
  unfold run_checks pipelineTail check_single_proj check_proj_loaded
  simp [h1, h3]

lemma run_checks_shifts (env : ValidationEnv) : Shifts (run_checks env) := by
  intro st
  unfold run_checks check_single_proj check_proj_loaded
  by_cases h1 : env.qgis_files.length > 1
  · simp [h1]
  · by_cases h2 : env.qgis_files.length = 0
    · simp [h1, h2]
    · by_cases h3 : env.proj_loaded
      · simp only [h1, h2, h3, if_true, if_false, ite_false, ite_true]
        exact pipelineTail_shifts env st
      · simp [h1, h2, h3]

/-! ## Claim theorems -/

/-- Sample editable GeoPackage layer whose schema-drift verdict is the
parameter. -/
def gpkgLayer (d : Bool) : Layer :=
  { lid := "L1", isVector := true, providerName := some "ogr",
    canAddFeatures := true, canChangeAttributeValues := true,
    storageType := "GPKG", inProjectDir := true, fields := [],
    schemaDiffers := d }

/-- Environment with one project file, loaded, relative paths, and one
editable GeoPackage layer. -/
def dbEnv (d : Bool) : ValidationEnv :=
  ⟨["project.qgs"], true, "false", [gpkgLayer d]⟩

/-- Claim C1: the spec says one run of `run_checks` appends a
`DATABASE_SCHEMA_CHANGE` issue for a GeoPackage editable layer exactly when
`has_schema_change` reports the schema differs from the baseline.  The code
does the opposite (`if not has_change`): with a drifted schema it appends
nothing, and with an unchanged schema it appends the issue. -/
theorem run_checks_db_schema_inverted :
    has_schema_change (gpkgLayer true) = true ∧
    (run_checks (dbEnv true) freshValidator).issues = [] ∧
    has_schema_change (gpkgLayer false) = false ∧
    (run_checks (dbEnv false) freshValidator).issues =
      [Issue.single "L1" Warning.DATABASE_SCHEMA_CHANGE] :=
  ⟨rfl, rfl, rfl, rfl⟩

/-- Ledger whose oldest (and only) version is the root version 1. -/
def ledgerAtRoot : VersionsTableModel := ⟨[⟨1, "author", "2024-01-01"⟩], none⟩

/-- Claim C2: the spec says `canFetchMore` is false exactly when the oldest
known version equals 1.  The code tests `oldest_version() >= 1`, so at
oldest = 1 it still returns true. -/
theorem canFetchMore_true_at_first_version :
    oldest_version ledgerAtRoot = some 1 ∧ canFetchMore ledgerAtRoot = true :=
  ⟨rfl, rfl⟩

/-- Ledger whose oldest version is 100, the boundary of the clamp slip. -/
def ledgerAt100 : VersionsTableModel := ⟨[⟨100, "author", "2024-01-01"⟩], none⟩

/-- Remote collaborator returning no versions (its payload is irrelevant to
the window computation). -/
def noRemoteVersions : Int → Int → List Version := fun _ _ => []

/-- Claim C3: the spec says `since = max(1, to − 100)`, never below 1.  The
code clamps only negative values (`if since < 0`), so at `to = 100` it
requests `since = 0` where the claim requires `max 1 (100 − 100) = 1`. -/
theorem fetch_window_since_zero_at_oldest100 :
    (VersionsFetcher.run ledgerAt100 0 noRemoteVersions).toVersion = 100 ∧
    (VersionsFetcher.run ledgerAt100 0 noRemoteVersions).since = 0 ∧
    max 1 ((100 : Int) - 100) = 1 :=
  ⟨rfl, rfl, by decide⟩

/-- Claim C4: one `VersionsFetcher.run` emits exactly one completion signal,
whose payload is the whole remote page reversed; if the page is ascending in
version number, the delivered payload is descending (newest first). -/
theorem run_emits_single_reversed_page
    (model : VersionsTableModel) (rcv : Int) (pv : Int → Int → List Version) :
    (VersionsFetcher.run model rcv pv).emissions =
      [(pv (VersionsFetcher.run model rcv pv).since
           (VersionsFetcher.run model rcv pv).toVersion).reverse] ∧
    ((pv (VersionsFetcher.run model rcv pv).since
         (VersionsFetcher.run model rcv pv).toVersion).Pairwise
        (fun a b => a.name < b.name) →
      ∀ p ∈ (VersionsFetcher.run model rcv pv).emissions,
        p.Pairwise (fun a b => a.name > b.name)) := by
  have h1 : (VersionsFetcher.run model rcv pv).emissions =
      [(pv (VersionsFetcher.run model rcv pv).since
           (VersionsFetcher.run model rcv pv).toVersion).reverse] := rfl
  refine ⟨h1, ?_⟩
  intro hasc p hp
  rw [h1, List.mem_singleton] at hp
  subst hp
  rw [List.pairwise_reverse]
  exact hasc

/-- Ascending two-version page served by the remote collaborator. -/
def ascendingSamplePage : Int → Int → List Version :=
  fun _ _ => [⟨1, "a", "t1"⟩, ⟨2, "b", "t2"⟩]

theorem run_emits_single_reversed_page_witness :
    (ascendingSamplePage 0 2).Pairwise (fun a b => a.name < b.name) ∧
    ([⟨2, "b", "t2"⟩, ⟨1, "a", "t1"⟩] : List Version).Pairwise
      (fun a b => a.name > b.name) :=
  ⟨by decide,
    (run_emits_single_reversed_page emptyModel 2 ascendingSamplePage).2
      (by decide) [⟨2, "b", "t2"⟩, ⟨1, "a", "t1"⟩] (List.mem_singleton.mpr rfl)⟩

/-- Claim C5: a `fetch_from_server` call made while the previously started
fetcher is still running is a no-op: the dock state (ledger included) is
unchanged and no new fetcher is started. -/
theorem fetch_from_server_noop_while_running (s : DockState) (f : FetcherHandle)
    (hf : s.fetcher = some f) (hr : f.isRunning = true) :
    fetch_from_server s = (s, false) := by
  unfold fetch_from_server
  rw [hf]
  simp [hr]

/-- Dock state with a running fetcher. -/
def runningDock : DockState := ⟨some ⟨true⟩, emptyModel⟩

theorem fetch_from_server_noop_while_running_witness :
    runningDock.fetcher = some ⟨true⟩ ∧
    FetcherHandle.isRunning ⟨true⟩ = true ∧
    fetch_from_server runningDock = (runningDock, false) :=
  ⟨rfl, rfl, fetch_from_server_noop_while_running runningDock ⟨true⟩ rfl rfl⟩

/-- Claim C6: with zero recognized project files `run_checks` returns exactly
`[PROJ_NOT_FOUND]` and equals the single-project check alone (no later check
runs); with more than one it returns exactly `[MULTIPLE_PROJS]`, likewise. -/
theorem run_checks_single_proj_aborts (envZ envM : ValidationEnv)
    (hz : envZ.qgis_files.length = 0) (hm : envM.qgis_files.length > 1) :
    run_checks envZ freshValidator = ⟨[Issue.multi Warning.PROJ_NOT_FOUND []]⟩ ∧
    run_checks envZ freshValidator = (check_single_proj envZ freshValidator).1 ∧
    run_checks envM freshValidator = ⟨[Issue.multi Warning.MULTIPLE_PROJS []]⟩ ∧
    run_checks envM freshValidator = (check_single_proj envM freshValidator).1 := by
  refine ⟨?_, ?_, ?_, ?_⟩ <;>
    simp [run_checks, check_single_proj, freshValidator, hz, hm]

theorem run_checks_single_proj_aborts_witness :
    ([] : List String).length = 0 ∧
    (["a.qgs", "b.qgs"] : List String).length > 1 ∧
    run_checks ⟨[], true, "false", []⟩ freshValidator =
      ⟨[Issue.multi Warning.PROJ_NOT_FOUND []]⟩ ∧
    run_checks ⟨["a.qgs", "b.qgs"], true, "false", []⟩ freshValidator =
      ⟨[Issue.multi Warning.MULTIPLE_PROJS []]⟩ :=
  ⟨rfl, by decide,
    (run_checks_single_proj_aborts ⟨[], true, "false", []⟩
      ⟨["a.qgs", "b.qgs"], true, "false", []⟩ rfl (by decide)).1,
    (run_checks_single_proj_aborts ⟨[], true, "false", []⟩
      ⟨["a.qgs", "b.qgs"], true, "false", []⟩ rfl (by decide)).2.2.1⟩

/-- Claim C7: for any sequence of `add_versions` calls whose concatenated
input is strictly decreasing in version number (hence non-overlapping),
after each call the ledger's row order is strictly descending and
`oldest_version` equals the minimum version number inserted so far. -/
theorem add_versions_desc_and_oldest_min (pages : List (List Version))
    (h : (namesOf pages.flatten).Pairwise (· > ·)) (k : Nat) :
    oldest_version (applyAdds emptyModel (pages.take k)) =
      minNames? (pages.take k).flatten ∧
    (namesOf (applyAdds emptyModel (pages.take k)).versions).Pairwise (· > ·) := by
  have hv : (applyAdds emptyModel (pages.take k)).versions =
      (pages.take k).flatten := by
    rw [applyAdds_versions]
    rfl
  have hdesc : (namesOf (pages.take k).flatten).Pairwise (· > ·) := by
    have hsplit : pages.flatten = (pages.take k).flatten ++ (pages.drop k).flatten := by
      rw [← List.flatten_append, List.take_append_drop]
    rw [hsplit, namesOf_append] at h
    exact (List.pairwise_append.mp h).1
  constructor
  · unfold oldest_version
    rw [hv]
    exact getLast_eq_min_of_desc _ hdesc
  · rw [hv]
    exact hdesc

/-- Two descending pages: versions 5, 3 then 2. -/
def samplePages : List (List Version) :=
  [[⟨5, "a", "t1"⟩, ⟨3, "b", "t2"⟩], [⟨2, "c", "t3"⟩]]

theorem add_versions_desc_and_oldest_min_witness :
    (namesOf samplePages.flatten).Pairwise (· > ·) ∧
    (oldest_version (applyAdds emptyModel (samplePages.take 2)) =
        minNames? (samplePages.take 2).flatten ∧
      (namesOf (applyAdds emptyModel (samplePages.take 2)).versions).Pairwise
        (· > ·)) :=
  ⟨by decide, add_versions_desc_and_oldest_min samplePages (by decide) 2⟩

/-- Directory with zero project files (project otherwise loaded). -/
def emptyDirEnv : ValidationEnv := ⟨[], true, "false", []⟩

/-- Claim C8 counterexample: `run_checks` never clears `self.issues`, so
calling it twice on the same validator instance returns a different (doubled)
list the second time — the runs do not yield identical issue lists. -/
theorem run_checks_second_call_differs :
    (run_checks emptyDirEnv (run_checks emptyDirEnv freshValidator)).issues ≠
      (run_checks emptyDirEnv freshValidator).issues := by
  decide

/-- Claim C8 (amended): each `run_checks` call appends the same
environment-determined issue suffix to whatever `self.issues` already holds.
Hence two runs that each start from a fresh validator yield identical lists,
while a second run on the same instance returns the first list with the same
suffix appended again. -/
theorem run_checks_appends_same_suffix (env : ValidationEnv) (st : ValidatorState) :
    (run_checks env st).issues =
      st.issues ++ (run_checks env freshValidator).issues := by
  rw [run_checks_shifts env st]
  rfl

/-- Claim C9: in a loaded single-project environment, an editable layer with
an `ExternalResource` field whose config has `RelativeStorage = 0` and a
`DefaultRoot` that is an absolute path and a valid expression receives all
three issues `ATTACHMENT_ABSOLUTE_PATH`, `ATTACHMENT_LOCAL_PATH`,
`ATTACHMENT_EXPRESSION_PATH` for its layer id in one validation run. -/
theorem attachment_absolute_three_issues (env : ValidationEnv)
    (l : Layer) (f : Field) (ws : EditorWidgetSetup) (dr : DefaultRootInfo)
    (h1 : env.qgis_files.length = 1) (h3 : env.proj_loaded = true)
    (hl : l ∈ env.layers) (he : l.lid ∈ editableLayers env.layers)
    (hf : f ∈ l.fields) (hs : f.setup = some ws)
    (ht : ws.wtype = "ExternalResource")
    (hrs : ws.config.relativeStorage = 0)
    (hdr : ws.config.defaultRoot = some dr)
    (habs : dr.isAbsPath = true) (hexp : dr.isValidExpression = true) :
    Issue.single l.lid Warning.ATTACHMENT_ABSOLUTE_PATH ∈
      (run_checks env freshValidator).issues ∧
    Issue.single l.lid Warning.ATTACHMENT_LOCAL_PATH ∈
      (run_checks env freshValidator).issues ∧
    Issue.single l.lid Warning.ATTACHMENT_EXPRESSION_PATH ∈
      (run_checks env freshValidator).issues := by
  rw [run_checks_eq_pipelineTail env freshValidator h1 h3]
  unfold pipelineTail
  have key : ∀ (st : ValidatorState) (w : Warning),
      Issue.single l.lid w ∈ attachmentFieldIssues l.lid f →
      Issue.single l.lid w ∈
        (check_attachment_widget env.layers (editableLayers env.layers) st).issues := by
    intro st w hw
    rw [check_attachment_widget_factor]
    refine List.mem_append.mpr (Or.inr ?_)
    refine List.mem_flatMap.mpr ⟨l, hl, ?_⟩
    rw [if_pos he]
    exact List.mem_flatMap.mpr ⟨f, hf, hw⟩
  refine ⟨?_, ?_, ?_⟩ <;>
  · rw [check_db_schema_factor]
    refine List.mem_append.mpr (Or.inl ?_)
    apply key
    cases hu : ws.config.useLink <;>
      simp [attachmentFieldIssues, hs, ht, hrs, hdr, habs, hexp, hu]

/-- Attachment field with absolute storage mode and an absolute,
expression-valid default root. -/
def attachField : Field :=
  ⟨some ⟨"ExternalResource", ⟨0, some ⟨true, true⟩, none⟩⟩⟩

/-- Editable GeoPackage layer carrying `attachField`. -/
def attachLayer : Layer :=
  { lid := "A1", isVector := true, providerName := some "ogr",
    canAddFeatures := true, canChangeAttributeValues := true,
    storageType := "GPKG", inProjectDir := true, fields := [attachField],
    schemaDiffers := true }

/-- Loaded single-project environment containing `attachLayer`. -/
def attachEnv : ValidationEnv := ⟨["p.qgs"], true, "false", [attachLayer]⟩

theorem attachment_absolute_three_issues_witness :
    attachEnv.qgis_files.length = 1 ∧
    attachLayer.lid ∈ editableLayers attachEnv.layers ∧
    (Issue.single attachLayer.lid Warning.ATTACHMENT_ABSOLUTE_PATH ∈
        (run_checks attachEnv freshValidator).issues ∧
      Issue.single attachLayer.lid Warning.ATTACHMENT_LOCAL_PATH ∈
        (run_checks attachEnv freshValidator).issues ∧
      Issue.single attachLayer.lid Warning.ATTACHMENT_EXPRESSION_PATH ∈
        (run_checks attachEnv freshValidator).issues) :=
  ⟨rfl, by decide,
    attachment_absolute_three_issues attachEnv attachLayer attachField
      ⟨"ExternalResource", ⟨0, some ⟨true, true⟩, none⟩⟩ ⟨true, true⟩
      rfl rfl (by decide) (by decide) (by decide) rfl rfl rfl rfl rfl rfl⟩

/-- Claim C10: for an `ExternalResource` field of an editable layer, an
`ATTACHMENT_HYPERLINK` issue is produced if and only if the configuration
has a `DefaultRoot` key and a `UseLink` key — the `UseLink` value is never
consulted, and without `DefaultRoot` hyperlink mode is never flagged. -/
theorem attachment_hyperlink_iff (lid : String) (f : Field) (ws : EditorWidgetSetup)
    (hs : f.setup = some ws) (ht : ws.wtype = "ExternalResource") :
    (Issue.single lid Warning.ATTACHMENT_HYPERLINK ∈ attachmentFieldIssues lid f) ↔
      (ws.config.defaultRoot.isSome = true ∧ ws.config.useLink.isSome = true) := by
  have heq : attachmentFieldIssues lid f =
      (if ws.config.relativeStorage = 0
       then [Issue.single lid Warning.ATTACHMENT_ABSOLUTE_PATH] else []) ++
      (match ws.config.defaultRoot with
       | none => []
       | some dr =>
         (if dr.isAbsPath
          then [Issue.single lid Warning.ATTACHMENT_LOCAL_PATH] else []) ++
         (if dr.isValidExpression
          then [Issue.single lid Warning.ATTACHMENT_EXPRESSION_PATH] else []) ++
         (if ws.config.useLink.isSome
          then [Issue.single lid Warning.ATTACHMENT_HYPERLINK] else [])) := by
    simp [attachmentFieldIssues, hs, ht]
  rw [heq]
  cases hdr : ws.config.defaultRoot with
  | none => split_ifs <;> simp
  | some dr => split_ifs <;> simp_all

/-- Attachment field with both `DefaultRoot` and `UseLink` keys present. -/
def hyperField : Field :=
  ⟨some ⟨"ExternalResource", ⟨1, some ⟨false, false⟩, some true⟩⟩⟩

theorem attachment_hyperlink_iff_witness :
    Issue.single "H1" Warning.ATTACHMENT_HYPERLINK ∈
      attachmentFieldIssues "H1" hyperField :=
  (attachment_hyperlink_iff "H1" hyperField
      ⟨"ExternalResource", ⟨1, some ⟨false, false⟩, some true⟩⟩ rfl rfl).mpr
    (by decide)

end Mergin
